import Mathlib

/-!
Shallow embedding of the StickyLand code-cell mirroring subsystem
(`src/code.ts`, class `StickyCode`), together with the dock/float state
machine and the debounced auto-run scheduler.  Pure state that the
TypeScript class mutates (visibility flags of the original cell, the
execution-count display, observer connections, timer slot, dock state)
is modelled as fields of explicit state records; each method of the
class becomes a Lean function from state to state.
-/

namespace StickyLand

/-- State of a StickyCode mirror cell.  Fields mirror the mutable state of
the `StickyCode` class in `src/code.ts`:
`origNode` identifies the original (canonical) cell by its DOM node;
`originalInputHidden` / `originalOutputHidden` are `originalCell.inputHidden`
and `originalCell.outputHidden`; `executionCount` is the private
`_executionCount` (null modelled as `none`); `counterText` is
`executionCounter.innerText`; `counterDirty` / `counterFocused` model the
`dirty` / `mod-focused` CSS classes on the counter element;
`codeObserverConnected` / `outputObserverConnected` record whether the two
MutationObservers are observing; `toggleDisposed`, `nodeAttached`,
`toolbarAttached` model the toggle widget and the DOM attachment of the
mirror root and toolbar nodes; `editorFocused` models the CodeMirror
editor focus; the remaining fields are the homonymous class fields. -/
structure StickyCode where
  origNode : Nat
  originalInputHidden : Bool
  originalOutputHidden : Bool
  executionCount : Option Int
  counterText : String
  counterDirty : Bool
  counterFocused : Bool
  autoRun : Bool
  autoRunTimeout : Option Nat
  isDisposed : Bool
  isFloating : Bool
  codeObserverConnected : Bool
  outputObserverConnected : Bool
  toggleDisposed : Bool
  nodeAttached : Bool
  toolbarAttached : Bool
  editorFocused : Bool
  cellInputHidden : Bool
deriving DecidableEq, Repr

/-- Embedding of the `executionCount` setter (code.ts lines 267-276): store
the new count in `_executionCount`, then render `[n]` for a number and
`[*]` for null into the counter element. -/
def setExecutionCount (cd : StickyCode) (newCount : Option Int) : StickyCode :=
  match newCount with
  | some n =>
    { cd with executionCount := newCount, counterText := "[" ++ toString n ++ "]" }
  | none =>
    { cd with executionCount := newCount, counterText := "[*]" }

/-- Embedding of the state-relevant effects of
`StickyCode.createFromExistingCell` (code.ts lines 61-180): the original
cell's input and output are both hidden (lines 74-76), the execution count
is taken from the cell model through the setter (line 111), both mutation
observers are connected (lines 123-135), `autoRun` starts false and the
timer slot empty (class initializers, lines 46-48), and the mirror starts
docked, attached and not disposed.  `cellNode` identifies the canonical
cell; `modelCount` is `cell.model.executionCount`. -/
def createFromExistingCell (cellNode : Nat) (modelCount : Option Int) : StickyCode :=
  setExecutionCount
    { origNode := cellNode
      originalInputHidden := true
      originalOutputHidden := true
      executionCount := none
      counterText := ""
      counterDirty := false
      counterFocused := false
      autoRun := false
      autoRunTimeout := none
      isDisposed := false
      isFloating := false
      codeObserverConnected := true
      outputObserverConnected := true
      toggleDisposed := false
      nodeAttached := true
      toolbarAttached := true
      editorFocused := false
      cellInputHidden := false }
    modelCount

/-- Embedding of `StickyCode.dispose` (code.ts lines 621-631).  Faithful to
the source: it disconnects `codeObserver`, disposes the toggle, removes the
root and toolbar nodes and sets `isDisposed`; it does NOT disconnect
`outputObserver` (no such call appears in the method) and has no
already-disposed guard. -/
def dispose (cd : StickyCode) : StickyCode :=
  { cd with
    codeObserverConnected := false
    toggleDisposed := true
    nodeAttached := false
    toolbarAttached := false
    isDisposed := true }

/-- A DOM event, reduced to the two flags the handlers set
(`preventDefault`, `stopPropagation`). -/
structure UIEvent where
  defaultPrevented : Bool
  propagationStopped : Bool
deriving DecidableEq, Repr

/-- Effect of `event.preventDefault(); event.stopPropagation()`. -/
def suppressEvent (e : UIEvent) : UIEvent :=
  { e with defaultPrevented := true, propagationStopped := true }

/-- The visibility-restoring prefix of `StickyCode.closeClicked` (code.ts
lines 520-522): show the original cell again by clearing both hidden
flags.  Runs before `dispose` in the handler. -/
def closeRestore (cd : StickyCode) : StickyCode :=
  { cd with originalInputHidden := false, originalOutputHidden := false }

/-- Embedding of `StickyCode.closeClicked` (code.ts lines 516-529):
suppress the event, restore the original cell's visibility, then dispose
the mirror (the `showDropzone` call touches only the panel, not this
state). -/
def closeClicked (cd : StickyCode) (e : UIEvent) : StickyCode × UIEvent :=
  (dispose (closeRestore cd), suppressEvent e)

/-- The discriminant of a cell-model state change (`args.name` in
`handleStateChange`); every name other than `executionCount` and `isDirty`
falls into the default branch. -/
inductive StateChangeName
  | executionCount
  | isDirty
  | other
deriving DecidableEq, Repr

/-- The slice of the lumino `IChangedArgs` that `handleStateChange` reads:
the change name and, for `isDirty`, the boolean `newValue`. -/
structure ChangeArgs where
  name : StateChangeName
  newValue : Bool
deriving DecidableEq, Repr

/-- Embedding of `StickyCode.handleStateChange` (code.ts lines 232-262).
On an `executionCount` change it re-reads the model's execution count
(`modelCount` stands for `codeModel.executionCount`) through the setter
and, if the original cell's input is hidden, forces its output hidden
too; on an `isDirty` change it toggles the `dirty` class from
`args.newValue`; other names are ignored. -/
def handleStateChange (cd : StickyCode) (modelCount : Option Int)
    (args : ChangeArgs) : StickyCode :=
  match args.name with
  | StateChangeName.executionCount =>
    let cd1 := setExecutionCount cd modelCount
    if cd1.originalInputHidden then
      { cd1 with originalOutputHidden := true }
    else
      cd1
  | StateChangeName.isDirty =>
    if args.newValue then
      { cd with counterDirty := true }
    else
      { cd with counterDirty := false }
  | StateChangeName.other => cd

/-- The slice of the notebook panel that `StickyCode.execute` touches:
the active cell index (an `Int`, since `ArrayExt.findFirstIndex` yields
`-1` on no match), the cell widgets identified by their DOM nodes, and a
log of the cell indices that `NotebookActions.run` ran (in order). -/
structure NBState where
  activeCellIndex : Int
  widgets : List Nat
  runs : List Int
deriving DecidableEq, Repr

/-- Embedding of `ArrayExt.findFirstIndex(widgets, w => w.node === target)`:
index of the first element equal to `target`, or `-1` when none matches. -/
def findFirstIndex : List Nat → Nat → Int
  | [], _ => -1
  | x :: xs, target =>
    if x = target then 0
    else
      let r := findFirstIndex xs target
      if r = -1 then -1 else r + 1

/-- Embedding of `StickyCode.execute` (code.ts lines 422-450): record the
current active index; resolve the original cell's current index by a live
identity lookup; make it active; blur the mirror's editor; run the active
cell; and restore the recorded active index only when `restoreActiveCell`
is set.  Note the method never touches `autoRunTimeout`. -/
def execute (cd : StickyCode) (nb : NBState) (restoreActiveCell : Bool) :
    StickyCode × NBState :=
  let restoreActiveCellIndex := nb.activeCellIndex
  let cellIndex := findFirstIndex nb.widgets cd.origNode
  let nb1 := { nb with activeCellIndex := cellIndex }
  let cd1 := { cd with editorFocused := false }
  let nb2 := { nb1 with runs := nb1.runs ++ [nb1.activeCellIndex] }
  let nb3 :=
    if restoreActiveCell then
      { nb2 with activeCellIndex := restoreActiveCellIndex }
    else nb2
  (cd1, nb3)

/-- The body of the debounce timer callback armed in
`createFromExistingCell` (code.ts lines 153-155): it calls
`cd.execute(true)` and nothing else — in particular it does not write to
`autoRunTimeout`. -/
def autoRunTimerFired (cd : StickyCode) (nb : NBState) : StickyCode × NBState :=
  execute cd nb true

/-- A keyboard event, reduced to the fields the keydown handler reads and
sets. -/
structure KeyEvent where
  key : String
  shiftKey : Bool
  ctrlKey : Bool
  defaultPrevented : Bool
  propagationStopped : Bool
deriving DecidableEq, Repr

/-- Embedding of the keydown listener bound in
`StickyCode.bindEventHandlers` (code.ts lines 607-619): on `Enter` with
Shift or Ctrl held, run `execute()` (with its default
`restoreActiveCell = false`) and suppress the event; otherwise do
nothing. -/
def keydownHandler (cd : StickyCode) (nb : NBState) (e : KeyEvent) :
    StickyCode × NBState × KeyEvent :=
  if e.key = "Enter" then
    if e.shiftKey || e.ctrlKey then
      let r := execute cd nb false
      (r.1, r.2,
        { e with defaultPrevented := true, propagationStopped := true })
    else (cd, nb, e)
  else (cd, nb, e)

/-- State of the auto-run scheduler for one mirror, at the level of the
JavaScript timer queue.  `armedDeadline` is the absolute time (ms) at
which a scheduled, not-yet-fired `setTimeout` callback will run, or
`none` when no timer is in the queue.  It models the queue entry, not the
`autoRunTimeout` handle variable: `clearTimeout` on a handle whose timer
has already fired is a no-op, so only the queue entry matters for firing
behaviour.  `fires` counts how many times the auto-run callback has
executed. -/
structure SchedState where
  autoRun : Bool
  armedDeadline : Option Nat
  fires : Nat
deriving DecidableEq, Repr

/-- Timer-queue semantics: a timer whose deadline has been reached by time
`now` fires (runs the auto-run callback) before any event at `now` is
handled, leaving the queue empty. -/
def fireDue (s : SchedState) (now : Nat) : SchedState :=
  match s.armedDeadline with
  | some d =>
    if d ≤ now then { s with armedDeadline := none, fires := s.fires + 1 }
    else s
  | none => s

/-- Embedding of the `NotebookActions.executionScheduled` handler installed
by `createFromExistingCell` (code.ts lines 138-157): when the scheduled
cell is not the mirror's own original cell and auto-run is on, cancel any
pending timer (`clearTimeout`, a no-op on an already-fired handle) and arm
a fresh 200 ms timer; otherwise do nothing.  `now` is the event's arrival
time and `cellNode` the scheduled cell's node. -/
def onExecutionScheduled (ownNode : Nat) (s : SchedState) (now : Nat)
    (cellNode : Nat) : SchedState :=
  if cellNode ≠ ownNode ∧ s.autoRun = true then
    { s with armedDeadline := some (now + 200) }
  else s

/-- Process a time-ordered stream of execution-scheduled events, each a
pair (arrival time, scheduled cell node), firing any due timer before
handling each event. -/
def procEvents (ownNode : Nat) : SchedState → List (Nat × Nat) → SchedState
  | s, [] => s
  | s, (t, c) :: rest =>
    procEvents ownNode (onExecutionScheduled ownNode (fireDue s t) t c) rest

/-- End of the event stream: let enough time pass that a still-armed timer
fires. -/
def flushTimer (s : SchedState) : SchedState :=
  match s.armedDeadline with
  | some _ => { s with armedDeadline := none, fires := s.fires + 1 }
  | none => s

/-- Arrival times of an event stream all lie within each other's debounce
window: each event arrives no earlier than the previous one and strictly
before the previous event's 200 ms deadline.  The events' cell names are
unconstrained here. -/
def withinWindowEvB : Nat → List (Nat × Nat) → Bool
  | _, [] => true
  | prev, (t, _) :: rest =>
    decide (prev ≤ t) && decide (t < prev + 200) && withinWindowEvB t rest

/-- Arrival time of the last event of a stream, with the given default
for the empty stream. -/
def lastEvT : Nat → List (Nat × Nat) → Nat
  | p, [] => p
  | _, (t, _) :: rest => lastEvT t rest

/-- Modelled from the spec: the content kinds of StickyLand cells
(`ContentType` lives in `src/content.ts`, which is not among the source
files; the spec's Dock State tracks "the content kind" of each floating
window, and `code.ts` compares against `ContentType.Code`). -/
inductive ContentType
  | code
  | markdown
deriving DecidableEq, Repr

/-- Dock/float state of one mirror together with the panel context that
`StickyCode.float` reads: `wrapperChildren` are the child nodes of the
sticky content's wrapper node (the mirror's rendered subtree),
`floatingContent` is the subtree held by this mirror's floating window
(when floating), and `floatingWindows` is
`stickyContent.stickyLand.floatingWindows`, the content kinds of the
already-floating windows. -/
structure DockModel where
  isFloating : Bool
  wrapperChildren : List Nat
  floatingContent : Option (List Nat)
  floatingWindows : List ContentType
deriving DecidableEq, Repr

/-- Embedding of the stacking-index loop in `StickyCode.float` (code.ts
lines 459-467): start at 1 and, when the floating-window list is
non-empty, increment once for every already-floating window of kind
`Code`. -/
def computeFloatIndex (fws : List ContentType) : Nat :=
  if fws.length ≠ 0 then
    fws.foldl (fun acc d => if d = ContentType.code then acc + 1 else acc) 1
  else 1

/-- Number of already-floating windows of kind `Code`. -/
def countCodeWindows (fws : List ContentType) : Nat :=
  (fws.filter (fun d => decide (d = ContentType.code))).length

/-- Embedding of `StickyCode.float` (code.ts lines 455-490): compute the
stacking index from the already-floating windows, construct the floating
window (its self-registration in `stickyLand.floatingWindows` is
modelled from the spec, since `src/floating.ts` and `src/content.ts` are
not among the source files), move — not copy — all wrapper children into
the floating content, and set `isFloating`.  Returns the new state and
the stacking index passed to the `FloatingWindow` constructor. -/
def float (m : DockModel) : DockModel × Nat :=
  let floatIndex := computeFloatIndex m.floatingWindows
  ({ m with
      floatingWindows := m.floatingWindows ++ [ContentType.code]
      floatingContent := some m.wrapperChildren
      wrapperChildren := []
      isFloating := true },
    floatIndex)

/-- Embedding of `StickyCode.land` (code.ts lines 495-497): the method
body holds only the comment "Put back the nodes" and performs no
mutation. -/
def land (m : DockModel) : DockModel :=
  m

/-- How many mirrors in the list are live mirrors of the given canonical
cell node. -/
def liveMirrorCount (mirrors : List StickyCode) (cellNode : Nat) : Nat :=
  (mirrors.filter (fun m => m.origNode == cellNode && !m.isDisposed)).length

/-- Whether some live mirror of the given canonical cell exists. -/
def hasLiveMirror (mirrors : List StickyCode) (cellNode : Nat) : Bool :=
  mirrors.any (fun m => m.origNode == cellNode && !m.isDisposed)

/-- System-level effect of calling `StickyCode.createFromExistingCell` when
`mirrors` are the already-existing mirrors: the factory consults no
registry and has no failure path (code.ts lines 61-180 contain no
duplicate check and no throw), so it unconditionally constructs a new
mirror. -/
def mirrorSysCreate (mirrors : List StickyCode) (cellNode : Nat)
    (modelCount : Option Int) : List StickyCode × StickyCode :=
  let cd := createFromExistingCell cellNode modelCount
  (mirrors ++ [cd], cd)

/-- The error taxonomy of the specification's Mirror Factory. -/
inductive MirrorError
  | duplicateMirror
deriving DecidableEq, Repr

/-- Modelled from the spec, for comparison with `mirrorSysCreate` (this is
the specification's `createFromExisting`, not code from the repository):
"`createFromExisting` fails (raises a `DuplicateMirrorError`) if the
given canonical cell already has a live mirror". -/
def createFromExistingSpec (mirrors : List StickyCode) (cellNode : Nat)
    (modelCount : Option Int) :
    Except MirrorError (List StickyCode × StickyCode) :=
  if hasLiveMirror mirrors cellNode then
    Except.error MirrorError.duplicateMirror
  else
    Except.ok (mirrorSysCreate mirrors cellNode modelCount)

/-! Helper lemmas (shared; not tied to a single claim). -/

lemma createFromExistingCell_origNode (cellNode : Nat) (mc : Option Int) :
    (createFromExistingCell cellNode mc).origNode = cellNode := by
  cases mc <;> rfl

lemma createFromExistingCell_isDisposed (cellNode : Nat) (mc : Option Int) :
    (createFromExistingCell cellNode mc).isDisposed = false := by
  cases mc <;> rfl

lemma setExecutionCount_originalInputHidden (cd : StickyCode) (mc : Option Int) :
    (setExecutionCount cd mc).originalInputHidden = cd.originalInputHidden := by
  cases mc <;> rfl

/-- C6: for every value assigned to the mirror's execution count, the
execution-count display renders `[n]` when the assigned count is a number
`n`, and `[*]` when the assigned count is unset (null). -/
theorem executionCount_display (cd : StickyCode) (n : Int) :
    (setExecutionCount cd (some n)).counterText = "[" ++ toString n ++ "]"
    ∧ (setExecutionCount cd (some n)).executionCount = some n
    ∧ (setExecutionCount cd none).counterText = "[*]"
    ∧ (setExecutionCount cd none).executionCount = none :=
  ⟨rfl, rfl, rfl, rfl⟩

/-- C7: when the synchronization bridge handles an execution-count
state-change event while the canonical cell's input is hidden, the
canonical cell's output is hidden after the handler runs. -/
theorem handleStateChange_hidden_output (cd : StickyCode) (modelCount : Option Int)
    (args : ChangeArgs) (hname : args.name = StateChangeName.executionCount)
    (hin : cd.originalInputHidden = true) :
    (handleStateChange cd modelCount args).originalOutputHidden = true := by
  unfold handleStateChange
  rw [hname]
  have h1 : (setExecutionCount cd modelCount).originalInputHidden = true := by
    rw [setExecutionCount_originalInputHidden]; exact hin
  simp [h1]

/-- Witness for C7 at a concrete mirror whose original cell has hidden
input. -/
theorem handleStateChange_hidden_output_witness :
    (handleStateChange (createFromExistingCell 3 (some 2)) (some 5)
      ⟨StateChangeName.executionCount, false⟩).originalOutputHidden = true :=
  handleStateChange_hidden_output (createFromExistingCell 3 (some 2)) (some 5)
    ⟨StateChangeName.executionCount, false⟩ rfl (by decide)

/-- C2: creating a mirror hides the canonical cell's input and output;
closing the mirror restores both to visible, and the restoration (the
`closeRestore` prefix of the handler) happens on a not-yet-disposed
mirror, before `dispose` runs — `closeClicked` factors as `dispose`
after `closeRestore`. -/
theorem create_close_restores_visibility (cellNode : Nat) (modelCount : Option Int)
    (e : UIEvent) :
    (createFromExistingCell cellNode modelCount).originalInputHidden = true
    ∧ (createFromExistingCell cellNode modelCount).originalOutputHidden = true
    ∧ (closeRestore (createFromExistingCell cellNode modelCount)).originalInputHidden = false
    ∧ (closeRestore (createFromExistingCell cellNode modelCount)).originalOutputHidden = false
    ∧ (closeRestore (createFromExistingCell cellNode modelCount)).isDisposed = false
    ∧ closeClicked (createFromExistingCell cellNode modelCount) e =
        (dispose (closeRestore (createFromExistingCell cellNode modelCount)), suppressEvent e)
    ∧ (closeClicked (createFromExistingCell cellNode modelCount) e).1.originalInputHidden = false
    ∧ (closeClicked (createFromExistingCell cellNode modelCount) e).1.originalOutputHidden = false
    ∧ (closeClicked (createFromExistingCell cellNode modelCount) e).1.isDisposed = true := by
  cases modelCount <;> exact ⟨rfl, rfl, rfl, rfl, rfl, rfl, rfl, rfl, rfl⟩

/-- C5 (code evaluated at the failing input): on a freshly created live
mirror, `dispose` leaves the output-area mutation observer connected,
while it does disconnect the focus observer, dispose the toggle, detach
the root and toolbar nodes and mark the mirror disposed; a second call
changes nothing. -/
theorem dispose_output_observer_stays_connected :
    (dispose (createFromExistingCell 7 (some 3))).outputObserverConnected = true
    ∧ (dispose (createFromExistingCell 7 (some 3))).codeObserverConnected = false
    ∧ (dispose (createFromExistingCell 7 (some 3))).toggleDisposed = true
    ∧ (dispose (createFromExistingCell 7 (some 3))).nodeAttached = false
    ∧ (dispose (createFromExistingCell 7 (some 3))).toolbarAttached = false
    ∧ (dispose (createFromExistingCell 7 (some 3))).isDisposed = true
    ∧ dispose (dispose (createFromExistingCell 7 (some 3))) =
        dispose (createFromExistingCell 7 (some 3)) := by
  decide

/-- C4 (code evaluated at the failing input): `land` is a stub, so after
`float` followed by `land` the mirror is still marked floating, the
docked wrapper is still empty, and the subtree still sits in the
floating container — the round-trip does not restore the docked state. -/
theorem float_land_stub_not_roundtrip :
    land (float ⟨false, [1, 2], none, []⟩).1 = (float ⟨false, [1, 2], none, []⟩).1
    ∧ (land (float ⟨false, [1, 2], none, []⟩).1).isFloating = true
    ∧ (land (float ⟨false, [1, 2], none, []⟩).1).wrapperChildren = []
    ∧ (land (float ⟨false, [1, 2], none, []⟩).1).floatingContent = some [1, 2] := by
  decide

/-- C9 counterexample: at a concrete mirror whose pending-timer slot holds
handle 42, firing the debounce timer leaves `autoRunTimeout` at `some 42`
— the slot is not cleared back to empty, contradicting the claim. -/
theorem timer_fired_slot_not_cleared :
    (autoRunTimerFired
        { createFromExistingCell 3 (some 1) with autoRun := true, autoRunTimeout := some 42 }
        ⟨0, [3, 4], []⟩).1.autoRunTimeout = some 42
    ∧ (autoRunTimerFired
        { createFromExistingCell 3 (some 1) with autoRun := true, autoRunTimeout := some 42 }
        ⟨0, [3, 4], []⟩).1.autoRunTimeout ≠ none := by
  decide

/-- C9 amended: firing the debounce timer invokes the run operation with
restore-active-position semantics — the canonical cell is run (its live
index is appended to the run log) and the active index ends back at its
pre-run value — but the pending-timer slot is not cleared: `autoRunTimeout`
is left exactly as it was. -/
theorem timer_fired_restores_active_keeps_slot (cd : StickyCode) (nb : NBState) :
    (autoRunTimerFired cd nb).2.activeCellIndex = nb.activeCellIndex
    ∧ (autoRunTimerFired cd nb).2.runs = nb.runs ++ [findFirstIndex nb.widgets cd.origNode]
    ∧ (autoRunTimerFired cd nb).1.autoRunTimeout = cd.autoRunTimeout := by
  refine ⟨?_, ?_, ?_⟩ <;> simp [autoRunTimerFired, execute]

/-- C1 counterexample: with one live mirror of cell 5 already present,
`createFromExistingCell` raises nothing and produces a second live mirror
of cell 5 (the live-mirror count becomes 2), while the specification's
`createFromExisting` would fail with `DuplicateMirrorError`. -/
theorem create_duplicate_not_rejected :
    liveMirrorCount (mirrorSysCreate [createFromExistingCell 5 (some 1)] 5 (some 1)).1 5 = 2
    ∧ createFromExistingSpec [createFromExistingCell 5 (some 1)] 5 (some 1) =
        Except.error MirrorError.duplicateMirror :=
  ⟨by decide, rfl⟩

/-- C1 amended: `createFromExistingCell` performs no duplicate-mirror
check and has no failure path: called on a canonical cell that already
has a live mirror, it creates and returns a second live mirror (the
cell's live-mirror count increases by one) and leaves every pre-existing
mirror unchanged (they remain an unchanged prefix of the mirror list). -/
theorem create_duplicate_succeeds (mirrors : List StickyCode) (cellNode : Nat)
    (modelCount : Option Int) (h : hasLiveMirror mirrors cellNode = true) :
    liveMirrorCount (mirrorSysCreate mirrors cellNode modelCount).1 cellNode =
      liveMirrorCount mirrors cellNode + 1
    ∧ (mirrorSysCreate mirrors cellNode modelCount).1.take mirrors.length = mirrors
    ∧ (mirrorSysCreate mirrors cellNode modelCount).2.isDisposed = false := by
  refine ⟨?_, ?_, ?_⟩
  · simp [liveMirrorCount, mirrorSysCreate, List.filter_append,
      createFromExistingCell_origNode, createFromExistingCell_isDisposed]
  · simpa [mirrorSysCreate] using List.take_left mirrors _
  · simp [mirrorSysCreate, createFromExistingCell_isDisposed]

/-- Witness for C1 amended at a registry holding one live mirror of cell
6. -/
theorem create_duplicate_succeeds_witness :
    liveMirrorCount (mirrorSysCreate [createFromExistingCell 6 none] 6 none).1 6 =
      liveMirrorCount [createFromExistingCell 6 none] 6 + 1
    ∧ (mirrorSysCreate [createFromExistingCell 6 none] 6 none).1.take
        [createFromExistingCell 6 none].length = [createFromExistingCell 6 none]
    ∧ (mirrorSysCreate [createFromExistingCell 6 none] 6 none).2.isDisposed = false :=
  create_duplicate_succeeds [createFromExistingCell 6 none] 6 none (by decide)

/-- Folding the stacking-index loop body over a window list adds the
number of Code-kind windows to the accumulator. -/
lemma foldl_floatIndex (fws : List ContentType) : ∀ a : Nat,
    fws.foldl (fun acc d => if d = ContentType.code then acc + 1 else acc) a
      = a + countCodeWindows fws := by
  induction fws with
  | nil => intro a; simp [countCodeWindows]
  | cons d rest ih =>
    intro a
    cases d <;> simp [countCodeWindows, List.filter_cons, ih] <;> omega

/-- The stacking-index loop computes one plus the number of already
floating Code windows. -/
lemma computeFloatIndex_eq (fws : List ContentType) :
    computeFloatIndex fws = 1 + countCodeWindows fws := by
  cases fws with
  | nil => rfl
  | cons d rest =>
    unfold computeFloatIndex
    rw [if_pos (by simp)]
    exact foldl_floatIndex (d :: rest) 1

/-- C8: the stacking index passed to the floating window equals one plus
the number of already-floating windows of the same content kind (Code),
and when two Code mirrors float in sequence the second stacking index is
one greater than the first. -/
theorem float_stacking_index (m : DockModel) :
    (float m).2 = 1 + countCodeWindows m.floatingWindows
    ∧ (float (float m).1).2 = (float m).2 + 1 := by
  constructor
  · exact computeFloatIndex_eq m.floatingWindows
  · have h1 : (float m).2 = computeFloatIndex m.floatingWindows := rfl
    have h2 : (float (float m).1).2 =
        computeFloatIndex (m.floatingWindows ++ [ContentType.code]) := rfl
    have h3 : countCodeWindows (m.floatingWindows ++ [ContentType.code]) =
        countCodeWindows m.floatingWindows + 1 := by
      simp [countCodeWindows, List.filter_append]
    rw [h1, h2, computeFloatIndex_eq, computeFloatIndex_eq, h3]
    omega

/-- When the target is among the widgets, the live identity lookup
returns a non-negative index at which the target sits. -/
lemma findFirstIndex_mem : ∀ (l : List Nat) (t : Nat), t ∈ l →
    ∃ j : Nat, findFirstIndex l t = (j : Int) ∧ l.get? j = some t := by
  intro l
  induction l with
  | nil => intro t ht; cases ht
  | cons x xs ih =>
    intro t ht
    by_cases hx : x = t
    · exact ⟨0, by simp [findFirstIndex, hx], by simp [hx]⟩
    · have ht' : t ∈ xs := by
        cases List.mem_cons.mp ht with
        | inl h => exact absurd h.symm hx
        | inr h => exact h
      obtain ⟨j, hj1, hj2⟩ := ih t ht'
      refine ⟨j + 1, ?_, by simpa using hj2⟩
      have hne : findFirstIndex xs t ≠ -1 := by
        rw [hj1]; omega
      simp [findFirstIndex, hx, hne, hj1]

/-- C10: on the mirror root's keydown listener, Enter with Shift or Ctrl
held runs the mirrored cell without restoring the active position — the
canonical cell's live index is run and stays active (and that index
really addresses the canonical cell) — and the event's default behavior
and propagation are suppressed; a plain Enter changes nothing. -/
theorem keydown_enter_runs (cd : StickyCode) (nb : NBState) (e : KeyEvent)
    (hkey : e.key = "Enter") (hmem : cd.origNode ∈ nb.widgets) :
    ((e.shiftKey = true ∨ e.ctrlKey = true) →
      (keydownHandler cd nb e).2.1.runs = nb.runs ++ [findFirstIndex nb.widgets cd.origNode]
      ∧ (keydownHandler cd nb e).2.1.activeCellIndex = findFirstIndex nb.widgets cd.origNode
      ∧ (∃ j : Nat, findFirstIndex nb.widgets cd.origNode = (j : Int)
          ∧ nb.widgets.get? j = some cd.origNode)
      ∧ (keydownHandler cd nb e).2.2.defaultPrevented = true
      ∧ (keydownHandler cd nb e).2.2.propagationStopped = true)
    ∧ ((e.shiftKey = false ∧ e.ctrlKey = false) →
      keydownHandler cd nb e = (cd, nb, e)) := by
  constructor
  · intro hsc
    have hb : (e.shiftKey || e.ctrlKey) = true := by
      rcases hsc with h | h <;> simp [h]
    refine ⟨?_, ?_, findFirstIndex_mem nb.widgets cd.origNode hmem, ?_, ?_⟩ <;>
      simp [keydownHandler, hkey, hb, execute]
  · rintro ⟨h1, h2⟩
    simp [keydownHandler, hkey, h1, h2]

/-- Witness for C10: Shift+Enter on a concrete mirror of cell 3 in a
two-cell notebook. -/
theorem keydown_enter_runs_witness :
    ((KeyEvent.mk "Enter" true false false false).shiftKey = true
        ∨ (KeyEvent.mk "Enter" true false false false).ctrlKey = true →
      (keydownHandler (createFromExistingCell 3 none) ⟨0, [3, 4], []⟩
          (KeyEvent.mk "Enter" true false false false)).2.1.runs =
        (NBState.mk 0 [3, 4] []).runs ++
          [findFirstIndex (NBState.mk 0 [3, 4] []).widgets (createFromExistingCell 3 none).origNode]
      ∧ (keydownHandler (createFromExistingCell 3 none) ⟨0, [3, 4], []⟩
          (KeyEvent.mk "Enter" true false false false)).2.1.activeCellIndex =
        findFirstIndex (NBState.mk 0 [3, 4] []).widgets (createFromExistingCell 3 none).origNode
      ∧ (∃ j : Nat, findFirstIndex (NBState.mk 0 [3, 4] []).widgets
            (createFromExistingCell 3 none).origNode = (j : Int)
          ∧ (NBState.mk 0 [3, 4] []).widgets.get? j = some (createFromExistingCell 3 none).origNode)
      ∧ (keydownHandler (createFromExistingCell 3 none) ⟨0, [3, 4], []⟩
          (KeyEvent.mk "Enter" true false false false)).2.2.defaultPrevented = true
      ∧ (keydownHandler (createFromExistingCell 3 none) ⟨0, [3, 4], []⟩
          (KeyEvent.mk "Enter" true false false false)).2.2.propagationStopped = true)
    ∧ ((KeyEvent.mk "Enter" true false false false).shiftKey = false
        ∧ (KeyEvent.mk "Enter" true false false false).ctrlKey = false →
      keydownHandler (createFromExistingCell 3 none) ⟨0, [3, 4], []⟩
          (KeyEvent.mk "Enter" true false false false) =
        (createFromExistingCell 3 none, ⟨0, [3, 4], []⟩,
          KeyEvent.mk "Enter" true false false false)) :=
  keydown_enter_runs (createFromExistingCell 3 none) ⟨0, [3, 4], []⟩
    (KeyEvent.mk "Enter" true false false false) rfl (by decide)

/-- While qualifying events — each naming some cell other than the
mirror's own, not necessarily the same one — keep arriving inside the
previous timer's 200 ms window, each event cancels the pending timer and
re-arms a fresh one: no timer fires, and the surviving deadline is 200 ms
after the last event. -/
lemma procEvents_within (ownNode : Nat) :
    ∀ (evs : List (Nat × Nat)) (t0 f : Nat),
    (∀ e ∈ evs, e.2 ≠ ownNode) → withinWindowEvB t0 evs = true →
    procEvents ownNode ⟨true, some (t0 + 200), f⟩ evs =
      ⟨true, some (lastEvT t0 evs + 200), f⟩ := by
  intro evs
  induction evs with
  | nil => intro t0 f _ _; rfl
  | cons e rest ih =>
    intro t0 f hcells hw
    obtain ⟨t, c⟩ := e
    have hc : c ≠ ownNode := hcells (t, c) (List.mem_cons_self _ _)
    have hw' : (t0 ≤ t ∧ t < t0 + 200) ∧ withinWindowEvB t rest = true := by
      simpa [withinWindowEvB, Bool.and_eq_true] using hw
    have hfd : fireDue ⟨true, some (t0 + 200), f⟩ t = ⟨true, some (t0 + 200), f⟩ := by
      simp [fireDue, Nat.not_le.mpr hw'.1.2]
    have hoe : onExecutionScheduled ownNode ⟨true, some (t0 + 200), f⟩ t c =
        ⟨true, some (t + 200), f⟩ := by
      simp [onExecutionScheduled, hc]
    show procEvents ownNode
        (onExecutionScheduled ownNode (fireDue ⟨true, some (t0 + 200), f⟩ t) t c)
        rest = _
    rw [hfd, hoe]
    exact ih t f (fun x hx => hcells x (List.mem_cons_of_mem _ hx)) hw'.2

/-- Events naming the mirror's own cell never arm a timer: with no timer
pending, the scheduler state is untouched. -/
lemma procEvents_own (ownNode : Nat) :
    ∀ (evs : List (Nat × Nat)) (s : SchedState), s.armedDeadline = none →
    (∀ e ∈ evs, e.2 = ownNode) → procEvents ownNode s evs = s := by
  intro evs
  induction evs with
  | nil => intro s _ _; rfl
  | cons e rest ih =>
    intro s hs hall
    obtain ⟨t, c⟩ := e
    have hc : c = ownNode := hall (t, c) (List.mem_cons_self _ _)
    have hfd : fireDue s t = s := by
      simp [fireDue, hs]
    have hoe : onExecutionScheduled ownNode s t c = s := by
      simp [onExecutionScheduled, hc]
    show procEvents ownNode (onExecutionScheduled ownNode (fireDue s t) t c) rest = s
    rw [hfd, hoe]
    exact ih s hs (fun x hx => hall x (List.mem_cons_of_mem _ hx))

/-- While auto-run is disabled, no event arms a timer: with no timer
pending, the scheduler state is untouched. -/
lemma procEvents_disabled (ownNode : Nat) :
    ∀ (evs : List (Nat × Nat)) (s : SchedState), s.autoRun = false →
    s.armedDeadline = none → procEvents ownNode s evs = s := by
  intro evs
  induction evs with
  | nil => intro s _ _; rfl
  | cons e rest ih =>
    intro s ha hs
    obtain ⟨t, c⟩ := e
    have hfd : fireDue s t = s := by
      simp [fireDue, hs]
    have hoe : onExecutionScheduled ownNode s t c = s := by
      simp [onExecutionScheduled, ha]
    show procEvents ownNode (onExecutionScheduled ownNode (fireDue s t) t c) rest = s
    rw [hfd, hoe]
    exact ih s ha hs

/-- C3: with auto-run enabled, any non-empty burst of execution-scheduled
events — each naming some cell other than the mirror's own canonical
cell, the cells possibly all different — arriving within each other's
200 ms debounce windows issues exactly one auto-run; a stream of events
naming the mirror's own canonical cell issues none; and with auto-run
disabled no stream issues any. -/
theorem autoRun_debounce_coalesces (ownNode t1 c1 : Nat)
    (rest evsOwn evsAny : List (Nat × Nat))
    (hc1 : c1 ≠ ownNode) (hcrest : ∀ e ∈ rest, e.2 ≠ ownNode)
    (hw : withinWindowEvB t1 rest = true)
    (hown : ∀ e ∈ evsOwn, e.2 = ownNode) :
    (flushTimer (procEvents ownNode ⟨true, none, 0⟩ ((t1, c1) :: rest))).fires = 1
    ∧ (flushTimer (procEvents ownNode ⟨true, none, 0⟩ evsOwn)).fires = 0
    ∧ (flushTimer (procEvents ownNode ⟨false, none, 0⟩ evsAny)).fires = 0 := by
  refine ⟨?_, ?_, ?_⟩
  · show (flushTimer (procEvents ownNode
        (onExecutionScheduled ownNode (fireDue ⟨true, none, 0⟩ t1) t1 c1)
        rest)).fires = 1
    have hfd : fireDue ⟨true, none, 0⟩ t1 = ⟨true, none, 0⟩ := rfl
    have hoe : onExecutionScheduled ownNode ⟨true, none, 0⟩ t1 c1 =
        ⟨true, some (t1 + 200), 0⟩ := by
      simp [onExecutionScheduled, hc1]
    rw [hfd, hoe, procEvents_within ownNode rest t1 0 hcrest hw]
    rfl
  · rw [procEvents_own ownNode evsOwn ⟨true, none, 0⟩ rfl hown]
    rfl
  · rw [procEvents_disabled ownNode evsAny ⟨false, none, 0⟩ rfl rfl]
    rfl

/-- Witness for C3: a heterogeneous burst — cell 1 at 0 ms, cell 2 at
100 ms, cell 3 at 150 ms — on a mirror of cell 0 yields exactly one
auto-run; an own-cell event and a disabled-state event yield none. -/
theorem autoRun_debounce_coalesces_witness :
    (flushTimer (procEvents 0 ⟨true, none, 0⟩
        (((0 : Nat), (1 : Nat)) :: [(100, 2), (150, 3)]))).fires = 1
    ∧ (flushTimer (procEvents 0 ⟨true, none, 0⟩ [(5, 0)])).fires = 0
    ∧ (flushTimer (procEvents 0 ⟨false, none, 0⟩ [(7, 3)])).fires = 0 :=
  autoRun_debounce_coalesces 0 0 1 [(100, 2), (150, 3)] [(5, 0)] [(7, 3)]
    (by decide) (by decide) (by decide) (by decide)

end StickyLand
